import Mathlib

/-!
Verification of the tfvisualizer backend against its specification.

The definitions below are a shallow embedding of the Python source:

* `app/routes/projects.py` — project CRUD and the append-only versioning
  operations (`save_project_state`, `load_project_state`,
  `load_specific_version`, `create_project`);
* `app/models/user.py` — `User.is_trial_active`, `User.can_create_project`;
* `app/config/settings.py` — `Config.FREE_TIER_PROJECT_LIMIT`;
* `app/services/stripe_service.py` — the webhook event handlers and
  `sync_user_subscription`;
* `app/routes/webhooks.py` — `stripe_webhook` signature gate and dispatch;
* `app/utils/trial_utils.py` — `expire_trial`, `check_and_expire_trials`;
* `app/routes/ai.py` / `app/services/ai_service.py` — the server-sent-event
  framing of the streaming AI endpoints.

Database tables with a unique key (users by primary key, subscriptions by
the unique `stripe_subscription_id` column) are modelled as functions from
the key to an optional row; timestamps are modelled as integers (unix
seconds); SQLAlchemy commits that can fail are modelled by an explicit
`commitOk` flag: on `false` the handler's `except` branch rolls the session
back, so the state is returned unchanged and no exception escapes.
-/

/-- Snapshot payload of one save request: the four state fields the route
reads from the request body (`resources`, `connections`, `positions`,
`terraform_code`).  The element types are opaque to all the logic, so they
are modelled as strings. -/
structure Snapshot where
  resources : List String
  connections : List String
  positions : List (String × String)
  terraform_code : String
deriving Repr, DecidableEq

/-- Row of the `project_versions` table (`app/models/project.py`): the
version number, the snapshot payload and the creating user. -/
structure ProjectVersion where
  version_number : Nat
  snapshot : Snapshot
  created_by : String
deriving Repr, DecidableEq

/-- Result of `ProjectVersion.query.filter_by(project_id=...).order_by(
version_number.desc()).first()`: a row carrying the maximum
`version_number`, or `none` when the project has no versions. -/
def latestVersion : List ProjectVersion → Option ProjectVersion
  | [] => none
  | v :: vs =>
    match latestVersion vs with
    | none => some v
    | some w => if v.version_number < w.version_number then some w else some v

/-- Row of the `projects` table: owner and metadata. -/
structure ProjectRec where
  user_id : String
  name : String
  description : String
  visibility : String
deriving Repr, DecidableEq

/-- Project-store state: the `projects` table keyed by primary key and the
`project_versions` table grouped by `project_id` in insertion order. -/
structure ProjDB where
  projects : String → Option ProjectRec
  versions : String → List ProjectVersion

/-- Outcome of `save_project_state`, tagged by the HTTP status the route
returns: 404 project not found, 403 ownership mismatch, 400 missing body,
201 with the new version number. -/
inductive SaveResult where
  | notFound
  | unauthorized
  | badRequest
  | created (version_number : Nat)
deriving Repr, DecidableEq

/-- Embedding of `save_project_state` (`app/routes/projects.py` lines
168-232): look the project up, check ownership, require a body, compute
`next = latest.version_number + 1` (or 1), and append the immutable row. -/
def save_project_state (db : ProjDB) (user_id project_id : String)
    (data : Option Snapshot) : SaveResult × ProjDB :=
  match db.projects project_id with
  | none => (SaveResult.notFound, db)
  | some project =>
    if project.user_id ≠ user_id then (SaveResult.unauthorized, db)
    else
      match data with
      | none => (SaveResult.badRequest, db)
      | some s =>
        let rows := db.versions project_id
        let next_version :=
          match latestVersion rows with
          | some v => v.version_number + 1
          | none => 1
        let row : ProjectVersion :=
          { version_number := next_version, snapshot := s, created_by := user_id }
        (SaveResult.created next_version,
         { db with
             versions := fun p =>
               if p = project_id then rows ++ [row] else db.versions p })

/-- Body of the empty-state sentinel `load_project_state` returns when the
project has no versions: empty collections and empty text. -/
def emptySnapshot : Snapshot :=
  { resources := [], connections := [], positions := [], terraform_code := "" }

/-- Outcome of the two load routes.  `state s none` is the sentinel body
(no `version` field in the response); `state s (some n)` is a real
version's body. -/
inductive LoadStateResult where
  | notFound
  | unauthorized
  | state (s : Snapshot) (version : Option Nat)
deriving Repr, DecidableEq

/-- Embedding of `load_project_state` (`app/routes/projects.py` lines
235-284): ownership-checked load of the row with the maximum version
number, or the empty-state sentinel when no version exists. -/
def load_project_state (db : ProjDB) (user_id project_id : String) :
    LoadStateResult :=
  match db.projects project_id with
  | none => LoadStateResult.notFound
  | some project =>
    if project.user_id ≠ user_id then LoadStateResult.unauthorized
    else
      match latestVersion (db.versions project_id) with
      | none => LoadStateResult.state emptySnapshot none
      | some v => LoadStateResult.state v.snapshot (some v.version_number)

/-- Embedding of `load_specific_version` (`app/routes/projects.py` lines
331-374): exact match on `version_number`; absent means 404. -/
def load_specific_version (db : ProjDB) (user_id project_id : String)
    (version_number : Nat) : LoadStateResult :=
  match db.projects project_id with
  | none => LoadStateResult.notFound
  | some project =>
    if project.user_id ≠ user_id then LoadStateResult.unauthorized
    else
      match (db.versions project_id).find?
          (fun v => v.version_number == version_number) with
      | none => LoadStateResult.notFound
      | some v => LoadStateResult.state v.snapshot (some v.version_number)

/-- Sequential application of `save_project_state`, one call per snapshot,
collecting the per-call outcomes. -/
def saveMany (db : ProjDB) (user_id project_id : String) :
    List Snapshot → List SaveResult × ProjDB
  | [] => ([], db)
  | s :: rest =>
    let step := save_project_state db user_id project_id (some s)
    let tail := saveMany step.2 user_id project_id rest
    (step.1 :: tail.1, tail.2)

/-- Row of the `users` table (`app/models/user.py`), restricted to the
billing and trial columns the verified logic reads and writes. -/
structure UserRec where
  subscription_tier : String
  subscription_status : String
  is_on_trial : Bool
  trial_start_date : Option Int
  trial_end_date : Option Int
  stripe_customer_id : Option String
deriving Repr, DecidableEq

/-- `Config.FREE_TIER_PROJECT_LIMIT` (`app/config/settings.py` line 80). -/
def FREE_TIER_PROJECT_LIMIT : Nat := 3

/-- Embedding of `User.is_trial_active`: false when the flag is off or no
end date is stored, otherwise `utcnow() < trial_end_date`. -/
def is_trial_active (u : UserRec) (now : Int) : Bool :=
  match u.trial_end_date with
  | none => false
  | some e => u.is_on_trial && decide (now < e)

/-- Embedding of `User.can_create_project`: pro tier or an active trial is
unlimited; otherwise `self.projects.count()` (passed here explicitly as
`project_count`) must be below the free-tier limit. -/
def can_create_project (u : UserRec) (project_count : Nat) (now : Int) : Bool :=
  if u.subscription_tier == "pro" || is_trial_active u now then true
  else decide (project_count < FREE_TIER_PROJECT_LIMIT)

/-- Outcome of `create_project`, tagged by HTTP status: 404 unknown user,
403 limit reached, 400 missing name, 201 created. -/
inductive CreateProjectResult where
  | userNotFound
  | limitReached
  | badRequest
  | created
deriving Repr, DecidableEq

/-- Embedding of `create_project` (`app/routes/projects.py` lines 45-99):
the limit check runs before the body is read, so a user at the limit gets
403 even when the name is missing. -/
def create_project (u : Option UserRec) (project_count : Nat) (now : Int)
    (name : Option String) : CreateProjectResult :=
  match u with
  | none => CreateProjectResult.userNotFound
  | some user =>
    if !(can_create_project user project_count now) then
      CreateProjectResult.limitReached
    else
      match name with
      | none => CreateProjectResult.badRequest
      | some _ => CreateProjectResult.created

/-- Row of the `subscriptions` table (`app/models/subscription.py`): local
mirror of one external subscription object. -/
structure SubRow where
  user_id : String
  stripe_subscription_id : String
  stripe_price_id : String
  status : String
  current_period_start : Int
  current_period_end : Int
  cancel_at_period_end : Bool
deriving Repr, DecidableEq

/-- Row of the `payment_history` table (`app/models/payment.py`); the
amount is stored in dollars (`Numeric(10,2)`), modelled as a rational. -/
structure PaymentRow where
  user_id : String
  stripe_payment_intent_id : String
  amount : Rat
  currency : String
  status : String
deriving Repr, DecidableEq

/-- Payload of a Stripe subscription object as the webhook handlers read
it: id, `metadata['user_id']`, the first item's price id, status, period
bounds, cancellation flag and trial window. -/
structure StripeSubObj where
  id : String
  metadata_user_id : Option String
  price_id : String
  status : String
  current_period_start : Int
  current_period_end : Int
  cancel_at_period_end : Bool
  trial_start : Option Int
  trial_end : Option Int
deriving Repr, DecidableEq

/-- Payload of a Stripe checkout session object as
`handle_checkout_completed` reads it. -/
structure CheckoutSession where
  id : String
  metadata_user_id : Option String
  mode : String
  subscription : Option String
deriving Repr, DecidableEq

/-- Payload of a Stripe payment-intent object as the payment handlers read
it; `amount` is in cents. -/
structure PaymentIntentObj where
  id : String
  metadata_user_id : Option String
  amount : Int
  currency : String
deriving Repr, DecidableEq

/-- Relational-store state touched by the Stripe service: the `users`
table keyed by primary key, the `subscriptions` table keyed by the unique
`stripe_subscription_id` column, and the append-only `payment_history`
table. -/
structure DBState where
  users : String → Option UserRec
  subs : String → Option SubRow
  payments : List PaymentRow

/-- Update of the `users` table at one primary key. -/
def DBState.setUser (st : DBState) (uid : String) (u : UserRec) : DBState :=
  { st with users := fun k => if k = uid then some u else st.users k }

/-- Update of the `subscriptions` table at one external subscription id. -/
def DBState.setSub (st : DBState) (sid : String) (r : SubRow) : DBState :=
  { st with subs := fun k => if k = sid then some r else st.subs k }

/-- Embedding of `StripeService.handle_subscription_created`
(`app/services/stripe_service.py` lines 203-243).  Missing metadata or an
unknown user returns early; a duplicate external id makes the commit fail
on the unique index, which the handler's `except` turns into a rollback;
`commitOk = false` models any other commit failure, also rolled back.  On
success the new row is inserted and the user is forced to tier `pro`,
status `active` — the external object's status is stored only on the row. -/
def handle_subscription_created (commitOk : Bool) (st : DBState)
    (o : StripeSubObj) : DBState :=
  match o.metadata_user_id with
  | none => st
  | some uid =>
    match st.users uid with
    | none => st
    | some u =>
      if (st.subs o.id).isSome then st
      else if !commitOk then st
      else
        let row : SubRow :=
          { user_id := uid, stripe_subscription_id := o.id,
            stripe_price_id := o.price_id, status := o.status,
            current_period_start := o.current_period_start,
            current_period_end := o.current_period_end,
            cancel_at_period_end := o.cancel_at_period_end }
        ((st.setSub o.id row).setUser uid
          { u with subscription_tier := "pro", subscription_status := "active" })

/-- Embedding of `StripeService.handle_subscription_updated`
(`app/services/stripe_service.py` lines 245-293): update the row's status,
period bounds and cancellation flag, then mirror the status onto the
owning user for the statuses the handler recognizes — `trialing` sets the
trial flag (and the end date when the object carries one), `active`
clears it, `canceled` additionally downgrades the tier; other statuses
leave the user untouched.  An absent row returns early; an absent owner
(impossible under the foreign key) or a failed commit rolls back. -/
def handle_subscription_updated (commitOk : Bool) (st : DBState)
    (o : StripeSubObj) : DBState :=
  match st.subs o.id with
  | none => st
  | some r =>
    match st.users r.user_id with
    | none => st
    | some u =>
      if !commitOk then st
      else
        let r' : SubRow :=
          { r with status := o.status,
                   current_period_start := o.current_period_start,
                   current_period_end := o.current_period_end,
                   cancel_at_period_end := o.cancel_at_period_end }
        let u' : UserRec :=
          if o.status == "trialing" then
            { u with subscription_status := "trialing", is_on_trial := true,
                     trial_end_date :=
                       match o.trial_end with
                       | some t => some t
                       | none => u.trial_end_date }
          else if o.status == "active" then
            -- the source clears the flag under `if user.is_on_trial`,
            -- which leaves it false in every case
            { u with subscription_status := "active", is_on_trial := false }
          else if o.status == "canceled" then
            { u with subscription_status := o.status,
                     subscription_tier := "free", is_on_trial := false }
          else if o.status == "unpaid" || o.status == "past_due" then
            { u with subscription_status := o.status }
          else u
        ((st.setSub o.id r').setUser r.user_id u')

/-- Embedding of `StripeService.handle_subscription_deleted`
(`app/services/stripe_service.py` lines 295-324): when the row exists,
force the owner to tier `free`, status `canceled` and the row's status to
`canceled`; otherwise return early. -/
def handle_subscription_deleted (commitOk : Bool) (st : DBState)
    (o : StripeSubObj) : DBState :=
  match st.subs o.id with
  | none => st
  | some r =>
    match st.users r.user_id with
    | none => st
    | some u =>
      if !commitOk then st
      else
        ((st.setSub o.id { r with status := "canceled" }).setUser r.user_id
          { u with subscription_tier := "free", subscription_status := "canceled" })

/-- Embedding of `StripeService.handle_checkout_completed`
(`app/services/stripe_service.py` lines 389-442).  `retrieve` stands for
`stripe.Subscription.retrieve`; `none` models the external call raising,
which the handler's `except` turns into a rollback.  Only a
subscription-mode session carrying a subscription id does anything: the
user is set to tier `pro`; a `trialing` external status sets the trial
flag and copies the trial window when both bounds are present; an
`active` external status clears the flag only when the user was on trial
with a stored end date that `utcnow()` has reached; any other status is
mirrored verbatim. -/
def handle_checkout_completed (commitOk : Bool)
    (retrieve : String → Option StripeSubObj) (now : Int) (st : DBState)
    (sess : CheckoutSession) : DBState :=
  match sess.metadata_user_id with
  | none => st
  | some uid =>
    match st.users uid with
    | none => st
    | some u =>
      if sess.mode == "subscription" then
        match sess.subscription with
        | none => st
        | some subId =>
          match retrieve subId with
          | none => st
          | some sub =>
            if !commitOk then st
            else
              let u1 : UserRec := { u with subscription_tier := "pro" }
              let u2 : UserRec :=
                if sub.status == "trialing" then
                  let base : UserRec :=
                    { u1 with subscription_status := "trialing",
                              is_on_trial := true }
                  match sub.trial_start, sub.trial_end with
                  | some ts, some te =>
                    { base with trial_start_date := some ts,
                                trial_end_date := some te }
                  | _, _ => base
                else if sub.status == "active" then
                  let base : UserRec := { u1 with subscription_status := "active" }
                  if u1.is_on_trial &&
                      (match u1.trial_end_date with
                       | some e => decide (e ≤ now)
                       | none => false) then
                    { base with is_on_trial := false }
                  else base
                else
                  { u1 with subscription_status := sub.status }
              st.setUser uid u2
      else st

/-- Embedding of `StripeService.handle_payment_succeeded`
(`app/services/stripe_service.py` lines 326-355): with a `user_id` in the
metadata, append a `succeeded` ledger row (amount converted from cents);
a duplicate intent id or a missing user fails the commit on the unique
index or the foreign key, which the handler rolls back. -/
def handle_payment_succeeded (commitOk : Bool) (st : DBState)
    (o : PaymentIntentObj) : DBState :=
  match o.metadata_user_id with
  | none => st
  | some uid =>
    if (st.users uid).isNone then st
    else if (st.payments.any
        (fun p => p.stripe_payment_intent_id == o.id)) then st
    else if !commitOk then st
    else
      { st with payments := st.payments ++
          [{ user_id := uid, stripe_payment_intent_id := o.id,
             amount := (o.amount : Rat) / 100, currency := o.currency,
             status := "succeeded" }] }

/-- Embedding of `StripeService.handle_payment_failed`
(`app/services/stripe_service.py` lines 357-387): same shape as the
succeeded handler with ledger status `failed`. -/
def handle_payment_failed (commitOk : Bool) (st : DBState)
    (o : PaymentIntentObj) : DBState :=
  match o.metadata_user_id with
  | none => st
  | some uid =>
    if (st.users uid).isNone then st
    else if (st.payments.any
        (fun p => p.stripe_payment_intent_id == o.id)) then st
    else if !commitOk then st
    else
      { st with payments := st.payments ++
          [{ user_id := uid, stripe_payment_intent_id := o.id,
             amount := (o.amount : Rat) / 100, currency := o.currency,
             status := "failed" }] }

/-- Embedding of `StripeService.sync_user_subscription`
(`app/services/stripe_service.py` lines 444-496).  `gwStatuses` is the
status list of the customer's subscriptions as returned by the gateway.
With no customer id the sync is skipped; with an `active` or `trialing`
subscription present the user is forced to tier `pro` and that status;
otherwise a `pro` user is downgraded to `free`/`inactive`. -/
def sync_user_subscription (gwStatuses : List String) (u : UserRec) : UserRec :=
  match u.stripe_customer_id with
  | none => u
  | some _ =>
    match gwStatuses.find? (fun s => s == "active" || s == "trialing") with
    | some st => { u with subscription_tier := "pro", subscription_status := st }
    | none =>
      if u.subscription_tier == "pro" then
        { u with subscription_tier := "free", subscription_status := "inactive" }
      else u

/-- Predicate of the sweep's SQL filter `trial_end_date <= utcnow()`; a
NULL end date never matches. -/
def trialEndPassed (u : UserRec) (now : Int) : Bool :=
  match u.trial_end_date with
  | none => false
  | some e => decide (e ≤ now)

/-- Embedding of `expire_trial` (`app/utils/trial_utils.py` lines 30-66):
a user not on trial is refused; otherwise the flag is cleared and, when
the mirrored status is still `trialing`, `sync_user_subscription` is
invoked (its own failure is swallowed).  The result carries the updated
user, the success flag the function returns, and how many times the sync
was invoked. -/
def expire_trial (gwStatuses : List String) (u : UserRec) :
    UserRec × Bool × Nat :=
  if !u.is_on_trial then (u, false, 0)
  else
    let u1 : UserRec := { u with is_on_trial := false }
    if u1.subscription_status == "trialing" then
      (sync_user_subscription gwStatuses u1, true, 1)
    else (u1, true, 0)

/-- Action of one iteration of the `check_and_expire_trials` loop on one
user: users outside the filter (flag unset or end date not passed) are
untouched; matching users are passed to `expire_trial`.  The numeric
components count successful expirations and sync invocations. -/
def sweep_user (gwStatuses : List String) (now : Int) (u : UserRec) :
    UserRec × Nat × Nat :=
  if u.is_on_trial && trialEndPassed u now then
    let r := expire_trial gwStatuses u
    (r.1, if r.2.1 then 1 else 0, r.2.2)
  else (u, 0, 0)

/-- Embedding of `check_and_expire_trials` (`app/utils/trial_utils.py`
lines 69-96): the loop visits each user independently, so the sweep is the
per-user action mapped over the table, with the expiration and sync
counts summed. -/
def check_and_expire_trials (gwStatuses : List String) (now : Int)
    (users : List UserRec) : List UserRec × Nat × Nat :=
  (users.map (fun u => (sweep_user gwStatuses now u).1),
   (users.map (fun u => (sweep_user gwStatuses now u).2.1)).sum,
   (users.map (fun u => (sweep_user gwStatuses now u).2.2)).sum)

/-- Webhook event as dispatched by `stripe_webhook` after
`construct_event` succeeds, one constructor per recognized `event_type`
plus a catch-all. -/
inductive StripeEvent where
  | subscriptionCreated (o : StripeSubObj)
  | subscriptionUpdated (o : StripeSubObj)
  | subscriptionDeleted (o : StripeSubObj)
  | paymentSucceeded (o : PaymentIntentObj)
  | paymentFailed (o : PaymentIntentObj)
  | invoicePaymentSucceeded (id : String)
  | invoicePaymentFailed (id : String)
  | checkoutCompleted (s : CheckoutSession)
  | unrecognized (event_type : String)

/-- Outcome of `stripe.Webhook.construct_event`: `ValueError` on a
malformed payload, `SignatureVerificationError` on a bad signature, or the
parsed event. -/
inductive ConstructEventResult where
  | invalidPayload
  | invalidSignature
  | ok (e : StripeEvent)

/-- HTTP response of the webhook route: status code and whether the body
is the `success` body (as opposed to an `error` body). -/
structure WebhookResponse where
  status : Nat
  success : Bool
deriving Repr, DecidableEq

/-- Dispatch table of `stripe_webhook` (`app/routes/webhooks.py` lines
55-88): each recognized event type is routed to its handler; invoice
events are only logged; unrecognized types are logged and acknowledged. -/
def dispatch_event (commitOk : Bool) (retrieve : String → Option StripeSubObj)
    (now : Int) (st : DBState) : StripeEvent → DBState
  | StripeEvent.subscriptionCreated o => handle_subscription_created commitOk st o
  | StripeEvent.subscriptionUpdated o => handle_subscription_updated commitOk st o
  | StripeEvent.subscriptionDeleted o => handle_subscription_deleted commitOk st o
  | StripeEvent.paymentSucceeded o => handle_payment_succeeded commitOk st o
  | StripeEvent.paymentFailed o => handle_payment_failed commitOk st o
  | StripeEvent.invoicePaymentSucceeded _ => st
  | StripeEvent.invoicePaymentFailed _ => st
  | StripeEvent.checkoutCompleted s => handle_checkout_completed commitOk retrieve now st s
  | StripeEvent.unrecognized _ => st

/-- Embedding of the `stripe_webhook` route (`app/routes/webhooks.py`
lines 15-92): signature verification runs before anything is parsed or
applied — both failure modes return 400 with the store untouched; a
verified event is dispatched and acknowledged with 200/`success`.  The
handlers never raise (each catches and rolls back internally), so the 500
branch of the route is unreachable from them. -/
def stripe_webhook (commitOk : Bool) (retrieve : String → Option StripeSubObj)
    (now : Int) (cr : ConstructEventResult) (st : DBState) :
    WebhookResponse × DBState :=
  match cr with
  | ConstructEventResult.invalidPayload => ({ status := 400, success := false }, st)
  | ConstructEventResult.invalidSignature => ({ status := 400, success := false }, st)
  | ConstructEventResult.ok e =>
    ({ status := 200, success := true }, dispatch_event commitOk retrieve now st e)

/-- Item yielded by an AI service stream as the routes in
`app/routes/ai.py` see it: a text chunk (framed as the JSON object
`\x7b"chunk": ...\x7d`) or a dict (framed by `json.dumps` of the dict
itself); `payload` stands for the serialized dict content. -/
inductive AIChunk where
  | text (s : String)
  | obj (payload : String)
deriving Repr, DecidableEq

/-- Upstream model stream as seen by `AIService.generate_design`: the text
chunks delivered before the stream either ends normally (`err = none`) or
raises (`err = some e`). -/
structure UpstreamStream where
  chunks : List String
  err : Option String
deriving Repr, DecidableEq

/-- Embedding of the generator `AIService.generate_design`
(`app/services/ai_service.py` lines 114-200).  When the client is not
configured it yields a single availability-error dict; otherwise it
relays the upstream text chunks and catches any upstream exception,
yielding it as an error dict — the generator itself never raises, which
the `Option String` second component (always `none`) records. -/
def ai_generate_design (available : Bool) (upstream : UpstreamStream) :
    List AIChunk × Option String :=
  if !available then
    ([AIChunk.obj "available false, error AI service not configured"], none)
  else
    (upstream.chunks.map AIChunk.text ++
      (match upstream.err with
       | some e => [AIChunk.obj e]
       | none => []), none)

/-- Iteration of the dict returned by
`AIService.analyze_cost_optimization` (`app/services/ai_service.py` lines
28-112).  The function returns a dict (catching its own exceptions), and
the route's `for chunk in ...` iterates that dict, yielding its keys —
plain strings.  The key list depends on which branch built the dict. -/
def ai_cost_chunks (available : Bool) (upstreamOk : Bool) : List AIChunk :=
  if !available then [AIChunk.text "available", AIChunk.text "error"]
  else if upstreamOk then
    [AIChunk.text "available", AIChunk.text "success",
     AIChunk.text "analysis", AIChunk.text "usage"]
  else
    [AIChunk.text "available", AIChunk.text "success", AIChunk.text "error"]

/-- Framing of one yielded item by the `generate()` closures in
`optimize_costs` and `generate_design` (`app/routes/ai.py`): a str chunk
becomes `data: json.dumps(\x7b"chunk": chunk\x7d)` and a dict becomes
`data: json.dumps(chunk)`, each with the double newline.  `dumpsChunk`
and `dumpsObj` stand for the two `json.dumps` calls. -/
def sse_frame (dumpsChunk dumpsObj : String → String) : AIChunk → String
  | AIChunk.text s => "data: " ++ dumpsChunk s ++ "\x0a\x0a"
  | AIChunk.obj p => "data: " ++ dumpsObj p ++ "\x0a\x0a"

/-- Terminating frame both routes yield after the loop. -/
def doneFrame : String := "data: [DONE]\x0a\x0a"

/-- Body produced by the `generate()` closures in `app/routes/ai.py`
(lines 74-95 and 153-174) over a service stream: every item is framed;
when the iteration raises (`raised = some e`) the `except` branch yields
one final error frame and no `[DONE]`; otherwise the loop is followed by
the `[DONE]` frame. -/
def route_sse_body (dumpsChunk dumpsObj : String → String)
    (svc : List AIChunk × Option String) : List String :=
  match svc.2 with
  | some e => svc.1.map (sse_frame dumpsChunk dumpsObj) ++
      ["data: " ++ dumpsObj e ++ "\x0a\x0a"]
  | none => svc.1.map (sse_frame dumpsChunk dumpsObj) ++ [doneFrame]

/-- Full body of an accepted `POST /api/ai/design` request. -/
def design_response_body (dumpsChunk dumpsObj : String → String)
    (available : Bool) (upstream : UpstreamStream) : List String :=
  route_sse_body dumpsChunk dumpsObj (ai_generate_design available upstream)

/-- Full body of an accepted `POST /api/ai/cost-optimization` request. -/
def cost_response_body (dumpsChunk dumpsObj : String → String)
    (available : Bool) (upstreamOk : Bool) : List String :=
  route_sse_body dumpsChunk dumpsObj (ai_cost_chunks available upstreamOk, none)

lemma latestVersion_eq_none (rows : List ProjectVersion) :
    latestVersion rows = none ↔ rows = [] := by
  cases rows with
  | nil => simp [latestVersion]
  | cons v vs =>
    cases h : latestVersion vs <;> simp [latestVersion, h]
    split <;> simp

lemma sync_user_subscription_is_on_trial (gw : List String) (u : UserRec) :
    (sync_user_subscription gw u).is_on_trial = u.is_on_trial := by
  unfold sync_user_subscription
  cases u.stripe_customer_id with
  | none => rfl
  | some c =>
    cases gw.find? (fun s => s == "active" || s == "trialing") with
    | some st => rfl
    | none => by_cases hp : u.subscription_tier == "pro" <;> simp [hp]

/-- C5: a free-tier user without an active trial can create a project
exactly while their project count is below `FREE_TIER_PROJECT_LIMIT` (3)
and is rejected with the 403 limit error at the limit (even before the
name is read); a pro-tier or actively-trialing user is never rejected
with the limit error. -/
theorem c5_free_tier_project_limit (u : UserRec) (count : Nat) (now : Int)
    (name : Option String) (nm : String) :
    (u.subscription_tier = "free" → is_trial_active u now = false →
      (count < FREE_TIER_PROJECT_LIMIT →
        create_project (some u) count now (some nm) = CreateProjectResult.created) ∧
      (FREE_TIER_PROJECT_LIMIT ≤ count →
        create_project (some u) count now name = CreateProjectResult.limitReached)) ∧
    (u.subscription_tier = "pro" ∨ is_trial_active u now = true →
      create_project (some u) count now name ≠ CreateProjectResult.limitReached) := by
  constructor
  · intro ht htr
    constructor
    · intro hlt
      simp [create_project, can_create_project, ht, htr, hlt]
    · intro hge
      have hnlt : ¬ (count < FREE_TIER_PROJECT_LIMIT) := by omega
      simp [create_project, can_create_project, ht, htr, hnlt]
  · intro hp
    cases hp with
    | inl h =>
      cases name <;> simp [create_project, can_create_project, h]
    | inr h =>
      cases name <;> simp [create_project, can_create_project, h]

/-- Witness for C5 at concrete users: a free user with 2 projects creates
a third, a free user with 3 projects is limit-rejected, and a pro user
with 5 projects is not limit-rejected. -/
theorem c5_free_tier_project_limit_witness :
    create_project
        (some { subscription_tier := "free", subscription_status := "inactive",
                is_on_trial := false, trial_start_date := none,
                trial_end_date := none, stripe_customer_id := none })
        2 0 (some "Infra") = CreateProjectResult.created ∧
    create_project
        (some { subscription_tier := "free", subscription_status := "inactive",
                is_on_trial := false, trial_start_date := none,
                trial_end_date := none, stripe_customer_id := none })
        3 0 (some "Infra") = CreateProjectResult.limitReached ∧
    create_project
        (some { subscription_tier := "pro", subscription_status := "active",
                is_on_trial := false, trial_start_date := none,
                trial_end_date := none, stripe_customer_id := none })
        5 0 (some "Infra") ≠ CreateProjectResult.limitReached := by
  refine ⟨?_, ?_, ?_⟩
  · exact ((c5_free_tier_project_limit _ 2 0 (some "Infra") "Infra").1 rfl
      (by decide)).1 (by decide)
  · exact ((c5_free_tier_project_limit _ 3 0 (some "Infra") "Infra").1 rfl
      (by decide)).2 (by decide)
  · exact (c5_free_tier_project_limit _ 5 0 (some "Infra") "Infra").2 (Or.inl rfl)

/-- C7: a webhook request whose payload is malformed or whose signature
fails verification is answered 400 with an error body and the store is
returned untouched — the rejection happens before any event is
dispatched. -/
theorem c7_invalid_webhook_rejected_without_mutation (commitOk : Bool)
    (retrieve : String → Option StripeSubObj) (now : Int) (st : DBState) :
    stripe_webhook commitOk retrieve now ConstructEventResult.invalidPayload st =
      ({ status := 400, success := false }, st) ∧
    stripe_webhook commitOk retrieve now ConstructEventResult.invalidSignature st =
      ({ status := 400, success := false }, st) :=
  ⟨rfl, rfl⟩

lemma handle_subscription_created_commit_fail (st : DBState) (o : StripeSubObj) :
    handle_subscription_created false st o = st := by
  unfold handle_subscription_created
  cases hm : o.metadata_user_id with
  | none => simp
  | some uid =>
    cases hu : st.users uid with
    | none => simp [hu]
    | some u =>
      by_cases h : (st.subs o.id).isSome <;> simp [hu, h]

lemma handle_subscription_updated_commit_fail (st : DBState) (o : StripeSubObj) :
    handle_subscription_updated false st o = st := by
  unfold handle_subscription_updated
  cases hr : st.subs o.id with
  | none => simp
  | some r =>
    cases hu : st.users r.user_id with
    | none => simp [hu]
    | some u => simp [hu]

lemma handle_subscription_deleted_commit_fail (st : DBState) (o : StripeSubObj) :
    handle_subscription_deleted false st o = st := by
  unfold handle_subscription_deleted
  cases hr : st.subs o.id with
  | none => simp
  | some r =>
    cases hu : st.users r.user_id with
    | none => simp [hu]
    | some u => simp [hu]

lemma handle_checkout_completed_commit_fail
    (retrieve : String → Option StripeSubObj) (now : Int) (st : DBState)
    (sess : CheckoutSession) :
    handle_checkout_completed false retrieve now st sess = st := by
  unfold handle_checkout_completed
  cases hmd : sess.metadata_user_id with
  | none => simp
  | some uid =>
    cases hu : st.users uid with
    | none => simp [hu]
    | some u =>
      by_cases hm : sess.mode == "subscription"
      · cases hs : sess.subscription with
        | none => simp [hu, hm, hs]
        | some subId =>
          cases hret : retrieve subId with
          | none => simp [hu, hm, hs, hret]
          | some sub => simp [hu, hm, hs, hret]
      · simp [hu, hm]

lemma handle_payment_succeeded_commit_fail (st : DBState) (o : PaymentIntentObj) :
    handle_payment_succeeded false st o = st := by
  unfold handle_payment_succeeded
  cases o.metadata_user_id with
  | none => rfl
  | some uid =>
    by_cases h1 : (st.users uid).isNone
    · simp [h1]
    · by_cases h2 : st.payments.any (fun p => p.stripe_payment_intent_id == o.id) <;>
        simp [h1, h2]

lemma handle_payment_failed_commit_fail (st : DBState) (o : PaymentIntentObj) :
    handle_payment_failed false st o = st := by
  unfold handle_payment_failed
  cases o.metadata_user_id with
  | none => rfl
  | some uid =>
    by_cases h1 : (st.users uid).isNone
    · simp [h1]
    · by_cases h2 : st.payments.any (fun p => p.stripe_payment_intent_id == o.id) <;>
        simp [h1, h2]

/-- C10: a webhook request with a valid signature is acknowledged with
200 and the `success` body even when the event handler's store mutation
fails — every handler catches its own exception and rolls back without
re-raising, so the failed mutation leaves the store unchanged and the
event is still acknowledged to the payment processor. -/
theorem c10_failed_mutation_still_acknowledged
    (retrieve : String → Option StripeSubObj) (now : Int) (st : DBState)
    (e : StripeEvent) :
    stripe_webhook false retrieve now (ConstructEventResult.ok e) st =
      ({ status := 200, success := true }, st) := by
  have hd : dispatch_event false retrieve now st e = st := by
    cases e with
    | subscriptionCreated o => exact handle_subscription_created_commit_fail st o
    | subscriptionUpdated o => exact handle_subscription_updated_commit_fail st o
    | subscriptionDeleted o => exact handle_subscription_deleted_commit_fail st o
    | paymentSucceeded o => exact handle_payment_succeeded_commit_fail st o
    | paymentFailed o => exact handle_payment_failed_commit_fail st o
    | invoicePaymentSucceeded i => rfl
    | invoicePaymentFailed i => rfl
    | checkoutCompleted s => exact handle_checkout_completed_commit_fail retrieve now st s
    | unrecognized t => rfl
  simp [stripe_webhook, hd]

/-- C8: for a project owned by the caller, requesting a version number no
stored version carries returns 404, never a state body; the empty-state
sentinel (empty collections, empty text, no version field) is returned by
load-latest exactly when the project has no versions at all. -/
theorem c8_missing_version_not_found (db : ProjDB) (user_id project_id : String)
    (n : Nat) (proj : ProjectRec)
    (hp : db.projects project_id = some proj) (ho : proj.user_id = user_id)
    (habs : ∀ v ∈ db.versions project_id, v.version_number ≠ n) :
    load_specific_version db user_id project_id n = LoadStateResult.notFound ∧
    (load_project_state db user_id project_id =
        LoadStateResult.state emptySnapshot none ↔
      db.versions project_id = []) := by
  constructor
  · have hf : (db.versions project_id).find?
        (fun v => v.version_number == n) = none := by
      rw [List.find?_eq_none]
      intro v hv
      simpa using habs v hv
    simp [load_specific_version, hp, ho, hf]
  · rw [show load_project_state db user_id project_id =
        (match latestVersion (db.versions project_id) with
         | none => LoadStateResult.state emptySnapshot none
         | some v => LoadStateResult.state v.snapshot (some v.version_number))
      by simp [load_project_state, hp, ho]]
    cases h : latestVersion (db.versions project_id) with
    | none => simpa using (latestVersion_eq_none _).mp h
    | some v =>
      simp only []
      constructor
      · intro hcontr
        exact absurd (LoadStateResult.state.injEq _ _ _ _ ▸ hcontr)
          (by simp)
      · intro hnil
        rw [hnil] at h
        simp [latestVersion] at h

/-- Witness for C8 at a concrete one-project store with no versions:
version 5 is not found and load-latest returns the sentinel. -/
theorem c8_missing_version_not_found_witness :
    load_specific_version
        { projects := fun k =>
            if k = "p1" then
              some { user_id := "u1", name := "Infra", description := "",
                     visibility := "private" }
            else none,
          versions := fun _ => [] } "u1" "p1" 5 = LoadStateResult.notFound ∧
    (load_project_state
        { projects := fun k =>
            if k = "p1" then
              some { user_id := "u1", name := "Infra", description := "",
                     visibility := "private" }
            else none,
          versions := fun _ => [] } "u1" "p1" =
        LoadStateResult.state emptySnapshot none ↔
      ({ projects := fun k =>
            if k = "p1" then
              some { user_id := "u1", name := "Infra", description := "",
                     visibility := "private" }
            else none,
          versions := fun _ => [] } : ProjDB).versions "p1" = []) := by
  exact c8_missing_version_not_found _ "u1" "p1" 5
    { user_id := "u1", name := "Infra", description := "",
      visibility := "private" }
    (by simp) rfl (by simp)

lemma expire_trial_is_on_trial (gw : List String) (u : UserRec)
    (h : u.is_on_trial = true) :
    (expire_trial gw u).1.is_on_trial = false ∧ (expire_trial gw u).2.1 = true := by
  unfold expire_trial
  by_cases hs : ({ u with is_on_trial := false } : UserRec).subscription_status ==
      "trialing"
  · simp [h, hs, sync_user_subscription_is_on_trial]
  · simp [h, hs]

/-- C4: for a user with the trial flag set and an expired end date, one
run of the sweep clears the flag, invokes `sync_user_subscription`
exactly once precisely when the mirrored status is still `trialing` (and
zero times otherwise), and a second run of the sweep leaves that user
untouched and performs no further sync — both for the per-user step and
for the whole `check_and_expire_trials` pass. -/
theorem c4_trial_sweep_idempotent (gwStatuses : List String) (now : Int)
    (u : UserRec) (e : Int) (h1 : u.is_on_trial = true)
    (h2 : u.trial_end_date = some e) (h3 : e ≤ now) :
    (sweep_user gwStatuses now u).1.is_on_trial = false ∧
    (sweep_user gwStatuses now u).2.2 =
      (if u.subscription_status = "trialing" then 1 else 0) ∧
    sweep_user gwStatuses now (sweep_user gwStatuses now u).1 =
      ((sweep_user gwStatuses now u).1, 0, 0) ∧
    check_and_expire_trials gwStatuses now
        ((check_and_expire_trials gwStatuses now [u]).1) =
      ((check_and_expire_trials gwStatuses now [u]).1, 0, 0) := by
  have hguard : (u.is_on_trial && trialEndPassed u now) = true := by
    simp [h1, trialEndPassed, h2, h3]
  have hsweep : sweep_user gwStatuses now u =
      ((expire_trial gwStatuses u).1,
       (if (expire_trial gwStatuses u).2.1 then 1 else 0),
       (expire_trial gwStatuses u).2.2) := by
    simp [sweep_user, hguard]
  have hflag := expire_trial_is_on_trial gwStatuses u h1
  have hflag1 : (sweep_user gwStatuses now u).1.is_on_trial = false := by
    rw [hsweep]; exact hflag.1
  have hskip : ∀ w : UserRec, w.is_on_trial = false →
      sweep_user gwStatuses now w = (w, 0, 0) := by
    intro w hw
    unfold sweep_user
    simp [hw]
  have hsecond : sweep_user gwStatuses now (sweep_user gwStatuses now u).1 =
      ((sweep_user gwStatuses now u).1, 0, 0) := hskip _ hflag1
  refine ⟨hflag1, ?_, hsecond, ?_⟩
  · rw [hsweep]
    unfold expire_trial
    by_cases hs : u.subscription_status = "trialing"
    · simp [h1, hs]
    · have hs' : (({ u with is_on_trial := false } : UserRec).subscription_status ==
          "trialing") = false := by
        simpa using hs
      simp [h1, hs', hs]
  · simp only [check_and_expire_trials, List.map_cons, List.map_nil,
      List.sum_cons, List.sum_nil, hsecond]
    simp

/-- Witness for C4 at a concrete trialing user whose trial ended at time
10, swept at time 20: the flag is cleared, the sync runs once, and the
second sweep is a no-op. -/
theorem c4_trial_sweep_idempotent_witness :
    (sweep_user ["active"] 20
        { subscription_tier := "pro", subscription_status := "trialing",
          is_on_trial := true, trial_start_date := some 0,
          trial_end_date := some 10,
          stripe_customer_id := some "cus_1" }).1.is_on_trial = false ∧
    (sweep_user ["active"] 20
        { subscription_tier := "pro", subscription_status := "trialing",
          is_on_trial := true, trial_start_date := some 0,
          trial_end_date := some 10,
          stripe_customer_id := some "cus_1" }).2.2 = 1 ∧
    sweep_user ["active"] 20
        (sweep_user ["active"] 20
          { subscription_tier := "pro", subscription_status := "trialing",
            is_on_trial := true, trial_start_date := some 0,
            trial_end_date := some 10,
            stripe_customer_id := some "cus_1" }).1 =
      ((sweep_user ["active"] 20
          { subscription_tier := "pro", subscription_status := "trialing",
            is_on_trial := true, trial_start_date := some 0,
            trial_end_date := some 10,
            stripe_customer_id := some "cus_1" }).1, 0, 0) := by
  have h := c4_trial_sweep_idempotent ["active"] 20
    { subscription_tier := "pro", subscription_status := "trialing",
      is_on_trial := true, trial_start_date := some 0,
      trial_end_date := some 10, stripe_customer_id := some "cus_1" }
    10 rfl rfl (by decide)
  refine ⟨h.1, ?_, h.2.2.1⟩
  rw [h.2.1]
  simp

/-- Counterexample to C2: a subscription-created event whose external
status is `trialing`, for an existing user with no prior row, leaves the
user's `subscription_status` at `active`, not `trialing` — the created
handler writes `active` unconditionally. -/
theorem c2_created_event_counterexample :
    ((handle_subscription_created true
        { users := fun k =>
            if k = "u1" then
              some { subscription_tier := "free",
                     subscription_status := "inactive", is_on_trial := false,
                     trial_start_date := none, trial_end_date := none,
                     stripe_customer_id := some "cus_1" }
            else none,
          subs := fun _ => none, payments := [] }
        { id := "sub_1", metadata_user_id := some "u1",
          price_id := "price_pro", status := "trialing",
          current_period_start := 0, current_period_end := 100,
          cancel_at_period_end := false, trial_start := some 0,
          trial_end := some 100 }).users "u1").map
      (fun w => w.subscription_status) = some "active" ∧
    ((handle_subscription_created true
        { users := fun k =>
            if k = "u1" then
              some { subscription_tier := "free",
                     subscription_status := "inactive", is_on_trial := false,
                     trial_start_date := none, trial_end_date := none,
                     stripe_customer_id := some "cus_1" }
            else none,
          subs := fun _ => none, payments := [] }
        { id := "sub_1", metadata_user_id := some "u1",
          price_id := "price_pro", status := "trialing",
          current_period_start := 0, current_period_end := 100,
          cancel_at_period_end := false, trial_start := some 0,
          trial_end := some 100 }).users "u1").map
      (fun w => w.subscription_status) ≠ some "trialing" := by
  constructor <;> decide

/-- C2 as amended: the created handler inserts the local row carrying the
external object's status, period bounds and cancel flag, but sets the
owning user to tier `pro`, status `active` unconditionally (so a
`trialing` created event leaves the user `active`); the updated handler
updates the row from the external object and mirrors the external status
onto the user only within the handled vocabulary — `trialing` sets the
trial flag, `active` clears it, `canceled` also downgrades the tier and
clears the flag, `unpaid`/`past_due` are copied verbatim. -/
theorem c2_subscription_events_amended :
    (∀ (st : DBState) (o : StripeSubObj) (uid : String) (u : UserRec),
      o.metadata_user_id = some uid → st.users uid = some u →
      st.subs o.id = none →
      (handle_subscription_created true st o).subs o.id =
        some { user_id := uid, stripe_subscription_id := o.id,
               stripe_price_id := o.price_id, status := o.status,
               current_period_start := o.current_period_start,
               current_period_end := o.current_period_end,
               cancel_at_period_end := o.cancel_at_period_end } ∧
      (handle_subscription_created true st o).users uid =
        some { u with subscription_tier := "pro",
                      subscription_status := "active" }) ∧
    (∀ (st : DBState) (o : StripeSubObj) (r : SubRow) (u : UserRec),
      st.subs o.id = some r → st.users r.user_id = some u →
      (handle_subscription_updated true st o).subs o.id =
        some { r with
                 status := o.status,
                 current_period_start := o.current_period_start,
                 current_period_end := o.current_period_end,
                 cancel_at_period_end := o.cancel_at_period_end } ∧
      (o.status = "trialing" →
        ((handle_subscription_updated true st o).users r.user_id).map
            (fun w => w.subscription_status) = some "trialing" ∧
        ((handle_subscription_updated true st o).users r.user_id).map
            (fun w => w.is_on_trial) = some true) ∧
      (o.status = "active" →
        ((handle_subscription_updated true st o).users r.user_id).map
            (fun w => w.subscription_status) = some "active" ∧
        ((handle_subscription_updated true st o).users r.user_id).map
            (fun w => w.is_on_trial) = some false) ∧
      (o.status = "canceled" →
        ((handle_subscription_updated true st o).users r.user_id).map
            (fun w => (w.subscription_status, w.subscription_tier,
                       w.is_on_trial)) =
          some ("canceled", "free", false)) ∧
      (o.status = "unpaid" ∨ o.status = "past_due" →
        ((handle_subscription_updated true st o).users r.user_id).map
            (fun w => w.subscription_status) = some o.status)) := by
  constructor
  · intro st o uid u hm hu hn
    constructor
    · simp [handle_subscription_created, hm, hu, hn, DBState.setSub,
        DBState.setUser]
    · simp [handle_subscription_created, hm, hu, hn, DBState.setSub,
        DBState.setUser]
  · intro st o r u hr hu
    refine ⟨?_, ?_, ?_, ?_, ?_⟩
    · simp [handle_subscription_updated, hr, hu, DBState.setSub,
        DBState.setUser]
    · intro hs
      constructor <;>
        simp [handle_subscription_updated, hr, hu, hs, DBState.setSub,
          DBState.setUser]
    · intro hs
      constructor <;>
        simp [handle_subscription_updated, hr, hu, hs, DBState.setSub,
          DBState.setUser]
    · intro hs
      simp [handle_subscription_updated, hr, hu, hs, DBState.setSub,
        DBState.setUser]
    · intro hs
      cases hs with
      | inl h =>
        simp [handle_subscription_updated, hr, hu, h, DBState.setSub,
          DBState.setUser]
      | inr h =>
        simp [handle_subscription_updated, hr, hu, h, DBState.setSub,
          DBState.setUser]

/-- Witness for the amended C2 at concrete events: a `trialing` created
event inserts the row with the external status but leaves the user
`pro`/`active`; a `canceled` updated event downgrades the user. -/
theorem c2_subscription_events_amended_witness :
    (handle_subscription_created true
        { users := fun k =>
            if k = "u1" then
              some { subscription_tier := "free",
                     subscription_status := "inactive", is_on_trial := false,
                     trial_start_date := none, trial_end_date := none,
                     stripe_customer_id := some "cus_1" }
            else none,
          subs := fun _ => none, payments := [] }
        { id := "sub_1", metadata_user_id := some "u1",
          price_id := "price_pro", status := "trialing",
          current_period_start := 0, current_period_end := 100,
          cancel_at_period_end := false, trial_start := some 0,
          trial_end := some 100 }).subs "sub_1" =
      some { user_id := "u1", stripe_subscription_id := "sub_1",
             stripe_price_id := "price_pro", status := "trialing",
             current_period_start := 0, current_period_end := 100,
             cancel_at_period_end := false } ∧
    (handle_subscription_created true
        { users := fun k =>
            if k = "u1" then
              some { subscription_tier := "free",
                     subscription_status := "inactive", is_on_trial := false,
                     trial_start_date := none, trial_end_date := none,
                     stripe_customer_id := some "cus_1" }
            else none,
          subs := fun _ => none, payments := [] }
        { id := "sub_1", metadata_user_id := some "u1",
          price_id := "price_pro", status := "trialing",
          current_period_start := 0, current_period_end := 100,
          cancel_at_period_end := false, trial_start := some 0,
          trial_end := some 100 }).users "u1" =
      some { subscription_tier := "pro", subscription_status := "active",
             is_on_trial := false, trial_start_date := none,
             trial_end_date := none, stripe_customer_id := some "cus_1" } ∧
    ((handle_subscription_updated true
        { users := fun k =>
            if k = "u1" then
              some { subscription_tier := "pro",
                     subscription_status := "active", is_on_trial := false,
                     trial_start_date := none, trial_end_date := none,
                     stripe_customer_id := some "cus_1" }
            else none,
          subs := fun k =>
            if k = "sub_1" then
              some { user_id := "u1", stripe_subscription_id := "sub_1",
                     stripe_price_id := "price_pro", status := "active",
                     current_period_start := 0, current_period_end := 100,
                     cancel_at_period_end := false }
            else none,
          payments := [] }
        { id := "sub_1", metadata_user_id := some "u1",
          price_id := "price_pro", status := "canceled",
          current_period_start := 100, current_period_end := 200,
          cancel_at_period_end := true, trial_start := none,
          trial_end := none }).users "u1").map
      (fun w => (w.subscription_status, w.subscription_tier,
                 w.is_on_trial)) =
      some ("canceled", "free", false) := by
  have h1 := c2_subscription_events_amended.1
    { users := fun k =>
        if k = "u1" then
          some { subscription_tier := "free",
                 subscription_status := "inactive", is_on_trial := false,
                 trial_start_date := none, trial_end_date := none,
                 stripe_customer_id := some "cus_1" }
        else none,
      subs := fun _ => none, payments := [] }
    { id := "sub_1", metadata_user_id := some "u1",
      price_id := "price_pro", status := "trialing",
      current_period_start := 0, current_period_end := 100,
      cancel_at_period_end := false, trial_start := some 0,
      trial_end := some 100 }
    "u1"
    { subscription_tier := "free", subscription_status := "inactive",
      is_on_trial := false, trial_start_date := none,
      trial_end_date := none, stripe_customer_id := some "cus_1" }
    rfl (by decide) rfl
  have h2 := c2_subscription_events_amended.2
    { users := fun k =>
        if k = "u1" then
          some { subscription_tier := "pro",
                 subscription_status := "active", is_on_trial := false,
                 trial_start_date := none, trial_end_date := none,
                 stripe_customer_id := some "cus_1" }
        else none,
      subs := fun k =>
        if k = "sub_1" then
          some { user_id := "u1", stripe_subscription_id := "sub_1",
                 stripe_price_id := "price_pro", status := "active",
                 current_period_start := 0, current_period_end := 100,
                 cancel_at_period_end := false }
        else none,
      payments := [] }
    { id := "sub_1", metadata_user_id := some "u1",
      price_id := "price_pro", status := "canceled",
      current_period_start := 100, current_period_end := 200,
      cancel_at_period_end := true, trial_start := none,
      trial_end := none }
    { user_id := "u1", stripe_subscription_id := "sub_1",
      stripe_price_id := "price_pro", status := "active",
      current_period_start := 0, current_period_end := 100,
      cancel_at_period_end := false }
    { subscription_tier := "pro", subscription_status := "active",
      is_on_trial := false, trial_start_date := none,
      trial_end_date := none, stripe_customer_id := some "cus_1" }
    (by decide) (by decide)
  exact ⟨h1.1, h1.2, h2.2.2.2.1 rfl⟩

/-- Counterexample to C3: a checkout-completed event whose freshly
retrieved subscription has status `active` does not clear the trial flag
of a user whose stored `trial_end_date` (100) is still in the future at
`now = 50` — the handler clears the flag only when the stored end date
has already passed, not for every user who had it set. -/
theorem c3_checkout_counterexample :
    ((handle_checkout_completed true
        (fun k =>
          if k = "sub_1" then
            some { id := "sub_1", metadata_user_id := some "u1",
                   price_id := "price_pro", status := "active",
                   current_period_start := 0, current_period_end := 200,
                   cancel_at_period_end := false, trial_start := none,
                   trial_end := none }
          else none)
        50
        { users := fun k =>
            if k = "u1" then
              some { subscription_tier := "free",
                     subscription_status := "trialing", is_on_trial := true,
                     trial_start_date := some 0, trial_end_date := some 100,
                     stripe_customer_id := some "cus_1" }
            else none,
          subs := fun _ => none, payments := [] }
        { id := "cs_1", metadata_user_id := some "u1",
          mode := "subscription", subscription := some "sub_1" }).users
      "u1").map (fun w => w.is_on_trial) = some true := by
  decide

/-- C3 as amended: for a subscription-mode checkout-completed event whose
subscription retrieval succeeds, the user is set to tier `pro`; a
`trialing` external status sets the trial flag and, when the external
object carries both trial bounds, copies the trial window; an `active`
external status sets status `active` but clears the trial flag only for
a user whose stored `trial_end_date` exists and has already passed
(`trial_end_date ≤ now`) — a user whose stored end date is in the future
or absent keeps the flag. -/
theorem c3_checkout_completed_amended (st : DBState) (sess : CheckoutSession)
    (uid : String) (u : UserRec) (subId : String) (sub : StripeSubObj)
    (retrieve : String → Option StripeSubObj) (now : Int)
    (hm : sess.metadata_user_id = some uid) (hu : st.users uid = some u)
    (hmode : sess.mode = "subscription") (hs : sess.subscription = some subId)
    (hret : retrieve subId = some sub) :
    ((handle_checkout_completed true retrieve now st sess).users uid).map
        (fun w => w.subscription_tier) = some "pro" ∧
    (sub.status = "trialing" →
      ((handle_checkout_completed true retrieve now st sess).users uid).map
          (fun w => (w.subscription_status, w.is_on_trial)) =
        some ("trialing", true) ∧
      (∀ ts te, sub.trial_start = some ts → sub.trial_end = some te →
        ((handle_checkout_completed true retrieve now st sess).users uid).map
            (fun w => (w.trial_start_date, w.trial_end_date)) =
          some (some ts, some te))) ∧
    (sub.status = "active" →
      ((handle_checkout_completed true retrieve now st sess).users uid).map
          (fun w => w.subscription_status) = some "active" ∧
      (((handle_checkout_completed true retrieve now st sess).users uid).map
          (fun w => w.is_on_trial) = some false ↔
        (u.is_on_trial = false ∨ ∃ e, u.trial_end_date = some e ∧ e ≤ now))) := by
  have hred : (handle_checkout_completed true retrieve now st sess).users uid =
      some (if sub.status == "trialing" then
              match sub.trial_start, sub.trial_end with
              | some ts, some te =>
                { u with subscription_tier := "pro",
                         subscription_status := "trialing",
                         is_on_trial := true, trial_start_date := some ts,
                         trial_end_date := some te }
              | _, _ =>
                { u with subscription_tier := "pro",
                         subscription_status := "trialing",
                         is_on_trial := true }
            else if sub.status == "active" then
              if u.is_on_trial &&
                  (match u.trial_end_date with
                   | some e => decide (e ≤ now)
                   | none => false) then
                { u with subscription_tier := "pro",
                         subscription_status := "active",
                         is_on_trial := false }
              else
                { u with subscription_tier := "pro",
                         subscription_status := "active" }
            else
              { u with subscription_tier := "pro",
                       subscription_status := sub.status }) := by
    simp only [handle_checkout_completed, hm, hu, hmode, hs, hret,
      beq_self_eq_true, if_true, DBState.setUser]
    simp
  refine ⟨?_, ?_, ?_⟩
  · rw [hred]
    by_cases h1 : sub.status = "trialing"
    · simp only [h1, beq_self_eq_true, if_true]
      cases sub.trial_start <;> cases sub.trial_end <;> simp
    · by_cases h2 : sub.status = "active"
      · simp only [h1, h2]
        by_cases h3 : (u.is_on_trial &&
            (match u.trial_end_date with
             | some e => decide (e ≤ now)
             | none => false)) = true <;> simp [h3]
      · simp [h1, h2]
  · intro h1
    rw [hred]
    simp only [h1, beq_self_eq_true, if_true]
    constructor
    · cases sub.trial_start <;> cases sub.trial_end <;> simp
    · intro ts te hts hte
      rw [hts, hte]
      simp
  · intro h2
    have h1 : ¬ sub.status = "trialing" := by simp [h2]
    rw [hred]
    simp only [h1, h2, beq_self_eq_true, if_true]
    constructor
    · by_cases h3 : (u.is_on_trial &&
          (match u.trial_end_date with
           | some e => decide (e ≤ now)
           | none => false)) = true <;> simp [h3]
    · by_cases hio : u.is_on_trial = true
      · cases hte : u.trial_end_date with
        | none => simp [hio, hte]
        | some e =>
          by_cases hle : e ≤ now
          · simp [hio, hte, hle]
          · simp only [hio, hte]
            simp [hle, hio]
      · have hio' : u.is_on_trial = false := by
          cases h : u.is_on_trial
          · rfl
          · exact absurd h hio
        simp [hio']

/-- Witness for the amended C3 at a concrete `trialing` checkout: the
user becomes pro/trialing with the trial window copied from the external
object. -/
theorem c3_checkout_completed_amended_witness :
    ((handle_checkout_completed true
        (fun k =>
          if k = "sub_1" then
            some { id := "sub_1", metadata_user_id := some "u1",
                   price_id := "price_pro", status := "trialing",
                   current_period_start := 0, current_period_end := 200,
                   cancel_at_period_end := false, trial_start := some 1000,
                   trial_end := some 2000 }
          else none)
        50
        { users := fun k =>
            if k = "u1" then
              some { subscription_tier := "free",
                     subscription_status := "inactive", is_on_trial := false,
                     trial_start_date := none, trial_end_date := none,
                     stripe_customer_id := some "cus_1" }
            else none,
          subs := fun _ => none, payments := [] }
        { id := "cs_1", metadata_user_id := some "u1",
          mode := "subscription", subscription := some "sub_1" }).users
      "u1").map (fun w => w.subscription_tier) = some "pro" ∧
    ((handle_checkout_completed true
        (fun k =>
          if k = "sub_1" then
            some { id := "sub_1", metadata_user_id := some "u1",
                   price_id := "price_pro", status := "trialing",
                   current_period_start := 0, current_period_end := 200,
                   cancel_at_period_end := false, trial_start := some 1000,
                   trial_end := some 2000 }
          else none)
        50
        { users := fun k =>
            if k = "u1" then
              some { subscription_tier := "free",
                     subscription_status := "inactive", is_on_trial := false,
                     trial_start_date := none, trial_end_date := none,
                     stripe_customer_id := some "cus_1" }
            else none,
          subs := fun _ => none, payments := [] }
        { id := "cs_1", metadata_user_id := some "u1",
          mode := "subscription", subscription := some "sub_1" }).users
      "u1").map (fun w => (w.trial_start_date, w.trial_end_date)) =
      some (some 1000, some 2000) := by
  have h := c3_checkout_completed_amended
    { users := fun k =>
        if k = "u1" then
          some { subscription_tier := "free",
                 subscription_status := "inactive", is_on_trial := false,
                 trial_start_date := none, trial_end_date := none,
                 stripe_customer_id := some "cus_1" }
        else none,
      subs := fun _ => none, payments := [] }
    { id := "cs_1", metadata_user_id := some "u1",
      mode := "subscription", subscription := some "sub_1" }
    "u1"
    { subscription_tier := "free", subscription_status := "inactive",
      is_on_trial := false, trial_start_date := none,
      trial_end_date := none, stripe_customer_id := some "cus_1" }
    "sub_1"
    { id := "sub_1", metadata_user_id := some "u1",
      price_id := "price_pro", status := "trialing",
      current_period_start := 0, current_period_end := 200,
      cancel_at_period_end := false, trial_start := some 1000,
      trial_end := some 2000 }
    (fun k =>
      if k = "sub_1" then
        some { id := "sub_1", metadata_user_id := some "u1",
               price_id := "price_pro", status := "trialing",
               current_period_start := 0, current_period_end := 200,
               cancel_at_period_end := false, trial_start := some 1000,
               trial_end := some 2000 }
      else none)
    50 rfl (by decide) rfl rfl (by decide)
  exact ⟨h.1, (h.2.1 rfl).2 1000 2000 rfl rfl⟩

lemma updated_preserves_presence (s : DBState) (o : StripeSubObj)
    (uid sid : String) (hu : (s.users uid).isSome)
    (hr : ∃ r, s.subs sid = some r ∧ r.user_id = uid) :
    ((handle_subscription_updated true s o).users uid).isSome ∧
    ∃ r, (handle_subscription_updated true s o).subs sid = some r ∧
      r.user_id = uid := by
  unfold handle_subscription_updated
  cases hro : s.subs o.id with
  | none => exact ⟨hu, hr⟩
  | some r0 =>
    cases huo : s.users r0.user_id with
    | none => simpa [hro, huo] using ⟨hu, hr⟩
    | some u0 =>
      obtain ⟨r1, hr1, hr1u⟩ := hr
      simp only [hro, huo]
      constructor
      · simp only [DBState.setUser, DBState.setSub]
        by_cases he : uid = r0.user_id <;> simp [he, hu]
      · by_cases he : sid = o.id
        · subst he
          have : r1 = r0 := by
            rw [hro] at hr1
            exact ((Option.some.injEq _ _).mp hr1).symm
          subst this
          refine ⟨{ r1 with
                      status := o.status,
                      current_period_start := o.current_period_start,
                      current_period_end := o.current_period_end,
                      cancel_at_period_end := o.cancel_at_period_end },
            ?_, ?_⟩
          · simp [DBState.setUser, DBState.setSub]
          · simpa using hr1u
        · refine ⟨r1, ?_, hr1u⟩
          simp only [DBState.setUser, DBState.setSub]
          simp [he, hr1]

lemma foldl_updated_preserves_presence (mids : List StripeSubObj)
    (uid sid : String) :
    ∀ s : DBState, (s.users uid).isSome →
      (∃ r, s.subs sid = some r ∧ r.user_id = uid) →
      ((mids.foldl (fun t m => handle_subscription_updated true t m)
          s).users uid).isSome ∧
      ∃ r, (mids.foldl (fun t m => handle_subscription_updated true t m)
          s).subs sid = some r ∧ r.user_id = uid := by
  induction mids with
  | nil => intro s h1 h2; exact ⟨h1, h2⟩
  | cons m ms ih =>
    intro s h1 h2
    have hstep := updated_preserves_presence s m uid sid h1 h2
    exact ih _ hstep.1 hstep.2

/-- Store state after replaying a created event, a list of updated
events, and a deleted event through the webhook handlers — the scenario
of the created-then-deleted property. -/
def replay_created_updates_deleted (st : DBState) (o : StripeSubObj)
    (mids : List StripeSubObj) (o2 : StripeSubObj) : DBState :=
  handle_subscription_deleted true
    (mids.foldl (fun t m => handle_subscription_updated true t m)
      (handle_subscription_created true st o)) o2

/-- C6: a subscription-created event for an existing user and a fresh
external id, followed by any list of subscription-updated events, then a
subscription-deleted event for the same id, leaves the user at tier
`free`, status `canceled`, and the local row for that id at status
`canceled`. -/
theorem c6_created_then_deleted (st : DBState) (o : StripeSubObj)
    (uid : String) (u : UserRec) (mids : List StripeSubObj)
    (o2 : StripeSubObj) (hm : o.metadata_user_id = some uid)
    (hu : st.users uid = some u) (hfresh : st.subs o.id = none)
    (hid : o2.id = o.id) :
    ((replay_created_updates_deleted st o mids o2).users uid).map
        (fun w => (w.subscription_tier, w.subscription_status)) =
      some ("free", "canceled") ∧
    ((replay_created_updates_deleted st o mids o2).subs o.id).map
        (fun r => r.status) = some "canceled" := by
  have hcre : handle_subscription_created true st o =
      ((st.setSub o.id
          { user_id := uid, stripe_subscription_id := o.id,
            stripe_price_id := o.price_id, status := o.status,
            current_period_start := o.current_period_start,
            current_period_end := o.current_period_end,
            cancel_at_period_end := o.cancel_at_period_end }).setUser uid
        { u with subscription_tier := "pro",
                 subscription_status := "active" }) := by
    simp [handle_subscription_created, hm, hu, hfresh]
  have h1 : ((handle_subscription_created true st o).users uid).isSome := by
    rw [hcre]
    simp [DBState.setUser, DBState.setSub]
  have h2 : ∃ r, (handle_subscription_created true st o).subs o.id = some r ∧
      r.user_id = uid := by
    rw [hcre]
    exact ⟨{ user_id := uid, stripe_subscription_id := o.id,
             stripe_price_id := o.price_id, status := o.status,
             current_period_start := o.current_period_start,
             current_period_end := o.current_period_end,
             cancel_at_period_end := o.cancel_at_period_end },
      by simp [DBState.setUser, DBState.setSub], rfl⟩
  have hfold := foldl_updated_preserves_presence mids uid o.id
    (handle_subscription_created true st o) h1 h2
  obtain ⟨hui, r2, hr2, hr2u⟩ := hfold
  obtain ⟨u2, hu2⟩ := Option.isSome_iff_exists.mp hui
  unfold replay_created_updates_deleted
  simp only [handle_subscription_deleted, hid, hr2]
  rw [hr2u, hu2]
  constructor
  · simp [DBState.setUser, DBState.setSub]
  · simp [DBState.setUser, DBState.setSub]

/-- Witness for C6: a concrete created event, one intervening `past_due`
update, and the deleted event leave the user free/canceled and the row
canceled. -/
theorem c6_created_then_deleted_witness :
    ((replay_created_updates_deleted
        { users := fun k =>
            if k = "u1" then
              some { subscription_tier := "free",
                     subscription_status := "inactive", is_on_trial := false,
                     trial_start_date := none, trial_end_date := none,
                     stripe_customer_id := some "cus_1" }
            else none,
          subs := fun _ => none, payments := [] }
        { id := "sub_1", metadata_user_id := some "u1",
          price_id := "price_pro", status := "trialing",
          current_period_start := 0, current_period_end := 100,
          cancel_at_period_end := false, trial_start := some 0,
          trial_end := some 100 }
        [{ id := "sub_1", metadata_user_id := some "u1",
           price_id := "price_pro", status := "past_due",
           current_period_start := 100, current_period_end := 200,
           cancel_at_period_end := false, trial_start := none,
           trial_end := none }]
        { id := "sub_1", metadata_user_id := some "u1",
          price_id := "price_pro", status := "canceled",
          current_period_start := 100, current_period_end := 200,
          cancel_at_period_end := false, trial_start := none,
          trial_end := none }).users "u1").map
      (fun w => (w.subscription_tier, w.subscription_status)) =
      some ("free", "canceled") ∧
    ((replay_created_updates_deleted
        { users := fun k =>
            if k = "u1" then
              some { subscription_tier := "free",
                     subscription_status := "inactive", is_on_trial := false,
                     trial_start_date := none, trial_end_date := none,
                     stripe_customer_id := some "cus_1" }
            else none,
          subs := fun _ => none, payments := [] }
        { id := "sub_1", metadata_user_id := some "u1",
          price_id := "price_pro", status := "trialing",
          current_period_start := 0, current_period_end := 100,
          cancel_at_period_end := false, trial_start := some 0,
          trial_end := some 100 }
        [{ id := "sub_1", metadata_user_id := some "u1",
           price_id := "price_pro", status := "past_due",
           current_period_start := 100, current_period_end := 200,
           cancel_at_period_end := false, trial_start := none,
           trial_end := none }]
        { id := "sub_1", metadata_user_id := some "u1",
          price_id := "price_pro", status := "canceled",
          current_period_start := 100, current_period_end := 200,
          cancel_at_period_end := false, trial_start := none,
          trial_end := none }).subs "sub_1").map (fun r => r.status) =
      some "canceled" := by
  exact c6_created_then_deleted
    { users := fun k =>
        if k = "u1" then
          some { subscription_tier := "free",
                 subscription_status := "inactive", is_on_trial := false,
                 trial_start_date := none, trial_end_date := none,
                 stripe_customer_id := some "cus_1" }
        else none,
      subs := fun _ => none, payments := [] }
    { id := "sub_1", metadata_user_id := some "u1",
      price_id := "price_pro", status := "trialing",
      current_period_start := 0, current_period_end := 100,
      cancel_at_period_end := false, trial_start := some 0,
      trial_end := some 100 }
    "u1"
    { subscription_tier := "free", subscription_status := "inactive",
      is_on_trial := false, trial_start_date := none,
      trial_end_date := none, stripe_customer_id := some "cus_1" }
    [{ id := "sub_1", metadata_user_id := some "u1",
       price_id := "price_pro", status := "past_due",
       current_period_start := 100, current_period_end := 200,
       cancel_at_period_end := false, trial_start := none,
       trial_end := none }]
    { id := "sub_1", metadata_user_id := some "u1",
      price_id := "price_pro", status := "canceled",
      current_period_start := 100, current_period_end := 200,
      cancel_at_period_end := false, trial_start := none,
      trial_end := none }
    rfl (by decide) rfl rfl

lemma ai_generate_design_no_raise (available : Bool)
    (upstream : UpstreamStream) :
    (ai_generate_design available upstream).2 = none := by
  cases available <;> rfl

lemma design_body_eq (dumpsChunk dumpsObj : String → String)
    (available : Bool) (upstream : UpstreamStream) :
    design_response_body dumpsChunk dumpsObj available upstream =
      (ai_generate_design available upstream).1.map
        (sse_frame dumpsChunk dumpsObj) ++ [doneFrame] := by
  cases available <;> rfl

lemma cost_body_eq (dumpsChunk dumpsObj : String → String)
    (available upstreamOk : Bool) :
    cost_response_body dumpsChunk dumpsObj available upstreamOk =
      (ai_cost_chunks available upstreamOk).map
        (sse_frame dumpsChunk dumpsObj) ++ [doneFrame] := rfl

lemma sse_frame_shape (dumpsChunk dumpsObj : String → String) (it : AIChunk) :
    ∃ p, sse_frame dumpsChunk dumpsObj it = "data: " ++ p ++ "\x0a\x0a" := by
  cases it with
  | text s => exact ⟨dumpsChunk s, rfl⟩
  | obj p => exact ⟨dumpsObj p, rfl⟩

/-- C9: the body of an accepted AI cost-optimization or design request
is a list of `data: <payload>` frames (each ending in the double
newline) whose last frame is the literal `data: [DONE]` frame — in every
execution, for every upstream chunk sequence and also when the upstream
model stream raises mid-stream (`upstream.err` set): the service catches
the error and yields it as one more framed chunk before the loop ends,
so the `[DONE]` terminator is still emitted. -/
theorem c9_sse_frames_terminated (dumpsChunk dumpsObj : String → String)
    (available : Bool) (upstream : UpstreamStream) (upstreamOk : Bool) :
    ((design_response_body dumpsChunk dumpsObj available upstream).getLast? =
        some doneFrame ∧
      ∀ f ∈ design_response_body dumpsChunk dumpsObj available upstream,
        ∃ p, f = "data: " ++ p ++ "\x0a\x0a") ∧
    ((cost_response_body dumpsChunk dumpsObj available upstreamOk).getLast? =
        some doneFrame ∧
      ∀ f ∈ cost_response_body dumpsChunk dumpsObj available upstreamOk,
        ∃ p, f = "data: " ++ p ++ "\x0a\x0a") := by
  have hframes : ∀ (items : List AIChunk) (f : String),
      f ∈ items.map (sse_frame dumpsChunk dumpsObj) ++ [doneFrame] →
      ∃ p, f = "data: " ++ p ++ "\x0a\x0a" := by
    intro items f hf
    rcases List.mem_append.mp hf with hin | hdone
    · obtain ⟨it, _, rfl⟩ := List.mem_map.mp hin
      exact sse_frame_shape dumpsChunk dumpsObj it
    · have : f = doneFrame := by simpa using hdone
      exact ⟨"[DONE]", by rw [this]; rfl⟩
  refine ⟨⟨?_, ?_⟩, ⟨?_, ?_⟩⟩
  · rw [design_body_eq]
    exact List.getLast?_concat _
  · intro f hf
    rw [design_body_eq] at hf
    exact hframes _ f hf
  · rw [cost_body_eq]
    exact List.getLast?_concat _
  · intro f hf
    rw [cost_body_eq] at hf
    exact hframes _ f hf

lemma latestVersion_append_lt (rows : List ProjectVersion) (v : ProjectVersion)
    (h : ∀ r ∈ rows, r.version_number < v.version_number) :
    latestVersion (rows ++ [v]) = some v := by
  induction rows with
  | nil => rfl
  | cons a l ih =>
    have ha := h a (by simp)
    have ih' := ih (fun r hr => h r (List.mem_cons_of_mem _ hr))
    show latestVersion (a :: (l ++ [v])) = some v
    simp [latestVersion, ih', ha]

lemma saveMany_spec (uid pid : String) (proj : ProjectRec)
    (hop : proj.user_id = uid) :
    ∀ (snaps : List Snapshot) (db : ProjDB) (k : Nat),
      db.projects pid = some proj →
      (db.versions pid).map (fun v => v.version_number) = List.range' 1 k →
      (∀ r ∈ db.versions pid, r.version_number ≤ k) →
      (match latestVersion (db.versions pid) with
       | none => k = 0
       | some r => r.version_number = k) →
      (saveMany db uid pid snaps).1 =
        (List.range' (k + 1) snaps.length).map SaveResult.created ∧
      (saveMany db uid pid snaps).2.projects = db.projects ∧
      ((saveMany db uid pid snaps).2.versions pid).map
          (fun v => v.version_number) = List.range' 1 (k + snaps.length) ∧
      (snaps ≠ [] →
        ∃ slast, snaps.getLast? = some slast ∧
          latestVersion ((saveMany db uid pid snaps).2.versions pid) =
            some { version_number := k + snaps.length, snapshot := slast,
                   created_by := uid }) ∧
      (snaps = [] → (saveMany db uid pid snaps).2 = db) := by
  intro snaps
  induction snaps with
  | nil =>
    intro db k hproj hmap hbound hlatest
    refine ⟨by simp [saveMany], rfl, by simpa using hmap, ?_, fun _ => rfl⟩
    intro h
    exact absurd rfl h
  | cons s rest ih =>
    intro db k hproj hmap hbound hlatest
    have hnext : (match latestVersion (db.versions pid) with
        | some v => v.version_number + 1
        | none => 1) = k + 1 := by
      cases hl : latestVersion (db.versions pid) with
      | none =>
        rw [hl] at hlatest
        simp [hlatest]
      | some r =>
        rw [hl] at hlatest
        simp [hlatest]
    have hstep : save_project_state db uid pid (some s) =
        (SaveResult.created (k + 1),
         { db with
             versions := fun p =>
               if p = pid then
                 db.versions pid ++
                   [{ version_number := k + 1, snapshot := s,
                      created_by := uid }]
               else db.versions p }) := by
      simp only [save_project_state, hproj, hop, ne_eq, not_true_eq_false,
        if_false, hnext]
    have hv1 : ({ db with
        versions := fun p =>
          if p = pid then
            db.versions pid ++
              [{ version_number := k + 1, snapshot := s, created_by := uid }]
          else db.versions p } : ProjDB).versions pid =
        db.versions pid ++
          [{ version_number := k + 1, snapshot := s, created_by := uid }] := by
      simp
    have hmap1 : (db.versions pid ++
        [({ version_number := k + 1, snapshot := s,
            created_by := uid } : ProjectVersion)]).map
          (fun v => v.version_number) =
        List.range' 1 (k + 1) := by
      rw [List.map_append, hmap, List.range'_1_concat]
      simp [Nat.add_comm]
    have hbound1 : ∀ r ∈ db.versions pid ++
        [({ version_number := k + 1, snapshot := s,
            created_by := uid } : ProjectVersion)],
        r.version_number ≤ k + 1 := by
      intro r hr
      rcases List.mem_append.mp hr with h | h
      · exact Nat.le_succ_of_le (hbound r h)
      · have hre : r = (⟨k + 1, s, uid⟩ : ProjectVersion) := by simpa using h
        rw [hre]
    have hlatest1 : latestVersion (db.versions pid ++
        [{ version_number := k + 1, snapshot := s, created_by := uid }]) =
        some { version_number := k + 1, snapshot := s, created_by := uid } :=
      latestVersion_append_lt _ _
        (fun r hr => Nat.lt_succ_of_le (hbound r hr))
    have ihr := ih
      { db with
          versions := fun p =>
            if p = pid then
              db.versions pid ++
                [{ version_number := k + 1, snapshot := s,
                   created_by := uid }]
            else db.versions p }
      (k + 1) hproj (by rw [hv1]; exact hmap1)
      (by rw [hv1]; exact hbound1)
      (by rw [hv1, hlatest1])
    have hsm : saveMany db uid pid (s :: rest) =
        ((save_project_state db uid pid (some s)).1 ::
          (saveMany (save_project_state db uid pid (some s)).2 uid pid rest).1,
         (saveMany (save_project_state db uid pid (some s)).2 uid pid rest).2) :=
      rfl
    refine ⟨?_, ?_, ?_, ?_, ?_⟩
    · rw [hsm, hstep]
      simp only []
      rw [ihr.1]
      rw [List.length_cons, List.range'_succ]
      simp
    · rw [hsm, hstep]
      simp only []
      rw [ihr.2.1]
    · rw [hsm, hstep]
      simp only []
      rw [ihr.2.2.1, List.length_cons]
      congr 1
      omega
    · intro _
      cases rest with
      | nil =>
        have hdb1 := ihr.2.2.2.2 rfl
        refine ⟨s, rfl, ?_⟩
        rw [hsm, hstep]
        simp only []
        rw [hdb1, hv1]
        rw [hlatest1]
        simp
      | cons r0 rs =>
        obtain ⟨slast, hgl, hlat⟩ := ihr.2.2.2.1 (List.cons_ne_nil r0 rs)
        refine ⟨slast, ?_, ?_⟩
        · rw [List.getLast?_cons_cons]
          exact hgl
        · have hlen : k + 1 + (r0 :: rs).length = k + (s :: r0 :: rs).length := by
            simp only [List.length_cons]
            omega
          rw [hlen] at hlat
          rw [hsm, hstep]
          simp only []
          exact hlat
    · intro h
      exact absurd h (List.cons_ne_nil s rest)

/-- C1: starting from a project with no versions, N sequential saves by
the owner all succeed and are numbered exactly 1..N — the stored rows'
version numbers are precisely the range 1..N, with no gaps or repeats —
and load-latest then returns the last saved snapshot with version N. -/
theorem c1_sequential_saves (db : ProjDB) (uid pid : String)
    (proj : ProjectRec) (snaps : List Snapshot)
    (hproj : db.projects pid = some proj) (hop : proj.user_id = uid)
    (hempty : db.versions pid = []) (hne : snaps ≠ []) :
    (saveMany db uid pid snaps).1 =
      (List.range' 1 snaps.length).map SaveResult.created ∧
    ((saveMany db uid pid snaps).2.versions pid).map
        (fun v => v.version_number) = List.range' 1 snaps.length ∧
    ∃ slast, snaps.getLast? = some slast ∧
      load_project_state (saveMany db uid pid snaps).2 uid pid =
        LoadStateResult.state slast (some snaps.length) := by
  have h := saveMany_spec uid pid proj hop snaps db 0 hproj
    (by rw [hempty]; rfl)
    (by rw [hempty]; intro r hr; exact absurd hr (List.not_mem_nil r))
    (by rw [hempty]; simp [latestVersion])
  obtain ⟨ho, hpj, hvm, hlast, _⟩ := h
  refine ⟨by simpa using ho, by simpa using hvm, ?_⟩
  obtain ⟨slast, hgl, hlat⟩ := hlast hne
  rw [Nat.zero_add] at hlat
  refine ⟨slast, hgl, ?_⟩
  have hpj2 : (saveMany db uid pid snaps).2.projects pid = some proj := by
    rw [hpj]
    exact hproj
  simp [load_project_state, hpj2, hop, hlat]

/-- Witness for C1: two sequential saves on a fresh project produce
versions 1 and 2, and load-latest returns the second snapshot at
version 2. -/
theorem c1_sequential_saves_witness :
    (saveMany
        { projects := fun k =>
            if k = "p1" then
              some { user_id := "u1", name := "Infra", description := "",
                     visibility := "private" }
            else none,
          versions := fun _ => [] } "u1" "p1"
        [{ resources := ["r1", "r2"], connections := [], positions := [],
           terraform_code := "" },
         { resources := ["r1", "r2", "r3"], connections := [],
           positions := [], terraform_code := "" }]).1 =
      [SaveResult.created 1, SaveResult.created 2] ∧
    ((saveMany
        { projects := fun k =>
            if k = "p1" then
              some { user_id := "u1", name := "Infra", description := "",
                     visibility := "private" }
            else none,
          versions := fun _ => [] } "u1" "p1"
        [{ resources := ["r1", "r2"], connections := [], positions := [],
           terraform_code := "" },
         { resources := ["r1", "r2", "r3"], connections := [],
           positions := [], terraform_code := "" }]).2.versions "p1").map
        (fun v => v.version_number) = [1, 2] ∧
    load_project_state
        (saveMany
          { projects := fun k =>
              if k = "p1" then
                some { user_id := "u1", name := "Infra", description := "",
                       visibility := "private" }
              else none,
            versions := fun _ => [] } "u1" "p1"
          [{ resources := ["r1", "r2"], connections := [], positions := [],
             terraform_code := "" },
           { resources := ["r1", "r2", "r3"], connections := [],
             positions := [], terraform_code := "" }]).2 "u1" "p1" =
      LoadStateResult.state
        { resources := ["r1", "r2", "r3"], connections := [],
          positions := [], terraform_code := "" } (some 2) := by
  have h := c1_sequential_saves
    { projects := fun k =>
        if k = "p1" then
          some { user_id := "u1", name := "Infra", description := "",
                 visibility := "private" }
        else none,
      versions := fun _ => [] }
    "u1" "p1"
    { user_id := "u1", name := "Infra", description := "",
      visibility := "private" }
    [{ resources := ["r1", "r2"], connections := [], positions := [],
       terraform_code := "" },
     { resources := ["r1", "r2", "r3"], connections := [],
       positions := [], terraform_code := "" }]
    (by simp) rfl rfl (by simp)
  refine ⟨?_, ?_, ?_⟩
  · rw [h.1]
    rfl
  · rw [h.2.1]
    rfl
  · obtain ⟨sl, hgl, hld⟩ := h.2.2
    have h2 : some ({ resources := ["r1", "r2", "r3"],
                      connections := [],
                      positions := [],
                      terraform_code := "" } : Snapshot) = some sl := by
      rw [← hgl]
      decide
    obtain h3 := Option.some.inj h2
    rw [← h3] at hld
    exact hld
